import Mathlib

/-
  Verification of the audio feature extraction and degradation pipeline of the
  Music-Feedback-App repository.

  Shallow embedding conventions:
  - JS numbers are modelled as rationals (ℚ); the source never relies on
    floating-point rounding on the paths proved here.
  - A possibly-absent JS value (a field that may be undefined) is an Option.
  - JS truthiness on numbers (0 and undefined are falsy) and on strings
    (the empty string and undefined are falsy) is modelled explicitly.
  - A promise that can reject is an Except; a function whose try/catch
    handles every error is total.
  - Math.round x is floor (x + 1/2), matching the JS half-up rule.
-/

namespace MusicFeedback

/-- JS `x || d` for numbers: the first operand is taken when it is truthy
(present and nonzero), otherwise the default. -/
def jsOr (x : Option ℚ) (d : ℚ) : ℚ :=
  match x with
  | some v => if v = 0 then d else v
  | none => d

/-- JS `x || y` for numbers where the result feeds another truthiness test:
keeps the second operand as-is (it may itself be absent or zero). -/
def jsOrOpt (x y : Option ℚ) : Option ℚ :=
  match x with
  | some v => if v = 0 then y else some v
  | none => y

/-- JS `s || d` for strings: the empty string and undefined are falsy. -/
def jsOrStr (x : Option String) (d : String) : String :=
  match x with
  | some s => if s = "" then d else s
  | none => d

/-- JS template-literal rendering of a possibly-undefined string. -/
def jsStr (x : Option String) : String := x.getD "undefined"

/-- JS `o > c` where `o` may be undefined: `undefined > c` is false. -/
def jsGtOpt (o : Option ℚ) (c : ℚ) : Bool :=
  match o with
  | some v => decide (c < v)
  | none => false

/-- JS `o < c` where `o` may be undefined: `undefined < c` is false. -/
def jsLtOpt (o : Option ℚ) (c : ℚ) : Bool :=
  match o with
  | some v => decide (v < c)
  | none => false

/-- JS number truthiness: a value is truthy when present and nonzero. -/
def truthyQ (x : Option ℚ) : Bool :=
  match x with
  | some v => if v = 0 then false else true
  | none => false

/-- JS `Math.round`, which rounds half-up (toward positive infinity). -/
def jsRound (x : ℚ) : ℤ := ⌊x + 1/2⌋

/- ===== Qualitative describers (enhancedAudioAnalysis.js, lines 597-661) ===== -/

/-- `describeTempo(bpm)`: the guard `if (!bpm)` catches undefined and 0,
then six fixed bands. -/
def describeTempo (bpm : Option ℚ) : String :=
  match bpm with
  | none => "Unknown tempo"
  | some b =>
    if b = 0 then "Unknown tempo"
    else if b < 70 then "Very slow tempo"
    else if b < 90 then "Slow tempo"
    else if b < 120 then "Moderate tempo"
    else if b < 140 then "Energetic tempo"
    else if b < 160 then "Fast tempo"
    else "Very fast tempo"

/-- `describeTempoQuality(bpm, beatStrength)`: the bpm argument is unused
once beatStrength is falsy-checked. -/
def describeTempoQuality (_bpm : Option ℚ) (beatStrength : Option String) : String :=
  match beatStrength with
  | none => "Unknown beat quality"
  | some s =>
    if s = "" then "Unknown beat quality"
    else if s = "Strong" then "Solid and consistent beat"
    else if s = "Moderate" then "Decent beat presence"
    else "Beat could be more pronounced"

/-- `describeDynamics(dynamicRange)` with the `!dynamicRange` guard. -/
def describeDynamics (dynamicRange : Option ℚ) : String :=
  match dynamicRange with
  | none => "Unknown dynamic range"
  | some d =>
    if d = 0 then "Unknown dynamic range"
    else if d > 4/5 then "Excellent dynamic range with great contrast between quiet and loud parts"
    else if d > 3/5 then "Good dynamic range"
    else if d > 2/5 then "Moderate dynamic range"
    else "Limited dynamic range, could benefit from more variation in volume"

/-- `describeSpectralBalance(spectralContrast)` with the falsy guard. -/
def describeSpectralBalance (spectralContrast : Option ℚ) : String :=
  match spectralContrast with
  | none => "Unknown frequency balance"
  | some c =>
    if c = 0 then "Unknown frequency balance"
    else if c > 4/5 then "Excellent frequency balance with clear separation between elements"
    else if c > 3/5 then "Good balance across frequency spectrum"
    else if c > 2/5 then "Decent frequency balance but some elements might mask others"
    else "Frequency spectrum could be more balanced, some frequency masking issues"

/-- `describeLoudness(loudness)` with the falsy guard. -/
def describeLoudness (loudness : Option ℚ) : String :=
  match loudness with
  | none => "Unknown loudness"
  | some l =>
    if l = 0 then "Unknown loudness"
    else if l > -10 then "Very loud mix, possibly over-compressed"
    else if l > -14 then "Loud modern mix"
    else if l > -18 then "Well-balanced loudness"
    else "Relatively quiet mix, could benefit from careful mastering"

/-- `assessLoudnessQuality(loudness)` with the falsy guard. -/
def assessLoudnessQuality (loudness : Option ℚ) : String :=
  match loudness with
  | none => "Unknown"
  | some l =>
    if l = 0 then "Unknown"
    else if l > -8 then "Too loud, dynamic range is likely compromised"
    else if l > -14 then "Good loudness for modern electronic music"
    else if l > -20 then "Good loudness with preserved dynamics"
    else "Could be louder while maintaining dynamics"

/-- `describeComplexity(complexityScore)` (no falsy guard in the source). -/
def describeComplexity (complexityScore : ℚ) : String :=
  if complexityScore > 4/5 then "Track has complex and sophisticated arrangement"
  else if complexityScore > 3/5 then "Track has good variation and interesting elements"
  else if complexityScore > 2/5 then "Track has decent arrangement complexity"
  else "Track could benefit from more variation and complexity in arrangement"

/- ===== Feature storage (enhancedAudioAnalysis.js, lines 150-160 and merges) ===== -/

/-- The metadata record built by `extractBasicMetadata` (lines 281-296). -/
structure MetadataRec where
  title : String := "Unknown Title"
  artist : String := "Unknown Artist"
  album : Option String := none
  genre : String := "Electronic"
  year : Option ℚ := none
  duration : Option ℚ := none
  bitrate : Option ℚ := none
  sampleRate : Option ℚ := none
  numberOfChannels : Option ℕ := none
  codec : Option String := none
  lossless : Option Bool := none
  bpm : Option ℚ := none
deriving DecidableEq

/-- `features.waveform`: fields written by the Essentia and Meyda merges;
`loudness` and `dynamicRange` are read by the formatter but never written
by any extractor in this module, so they stay absent on every real run. -/
structure WaveformF where
  loudness : Option ℚ := none
  dynamicRange : Option ℚ := none
  rms : Option ℚ := none
  zcr : Option ℚ := none
  crest : Option ℚ := none
  normalized : Option Bool := none
  length : Option ℕ := none
deriving DecidableEq

/-- `features.spectral`. -/
structure SpectralF where
  centroid : Option ℚ := none
  complexity : Option ℚ := none
  energy : Option ℚ := none
  contrast : Option ℚ := none
  flatness : Option ℚ := none
  rolloff : Option ℚ := none
  mfcc : Option (List ℚ) := none
deriving DecidableEq

/-- `features.rhythm`; `beatStrength` is read by the formatter but never
written by any extractor in this module. -/
structure RhythmF where
  bpm : Option ℚ := none
  confidence : Option ℚ := none
  beats_count : Option ℕ := none
  beatStrength : Option String := none
deriving DecidableEq

/-- `features.harmonic`; the Essentia extractor stores the combined
string for `key` and never sets `scale` or `strength`. -/
structure HarmonicF where
  key : Option String := none
  scale : Option String := none
  strength : Option ℚ := none
  key_confidence : Option ℚ := none
deriving DecidableEq

/-- The feature storage initialized at lines 152-160 and filled by the merges. -/
structure FeaturesF where
  metadata : MetadataRec := {}
  waveform : WaveformF := {}
  spectral : SpectralF := {}
  rhythm : RhythmF := {}
  harmonic : HarmonicF := {}
deriving DecidableEq

/- ===== calculateComplexityScore (lines 530-555) ===== -/

/-- `calculateComplexityScore(features)`: starts from `score = 0.5`,
adds each truthy factor, counts factors, and returns
`min(score / factors, 1)` when any factor was counted, else 0.5. -/
def calculateComplexityScore (f : FeaturesF) : ℚ :=
  let score : ℚ := 1/2
  let factors : ℕ := 0
  let p1 : ℚ × ℕ :=
    if truthyQ f.spectral.contrast then
      (score + f.spectral.contrast.getD 0, factors + 1)
    else (score, factors)
  let p2 : ℚ × ℕ :=
    if truthyQ f.waveform.dynamicRange then
      (p1.1 + f.waveform.dynamicRange.getD 0, p1.2 + 1)
    else p1
  let p3 : ℚ × ℕ :=
    if truthyQ f.spectral.flatness then
      (p2.1 + (1 - f.spectral.flatness.getD 0), p2.2 + 1)
    else p2
  if 0 < p3.2 then min (p3.1 / (p3.2 : ℚ)) 1 else 1/2

/- ===== deriveMood (lines 562-593) ===== -/

/-- `deriveMood(features)`: tempo, dynamics and spectral balance are
defaulted, then a six-way lookup over energy and complexity tiers. -/
def deriveMood (f : FeaturesF) : String :=
  let tempo := jsOr f.rhythm.bpm 120
  let dynamics := jsOr f.waveform.dynamicRange (1/2)
  let spectralBalance := jsOr f.spectral.contrast (1/2)
  let energy := if tempo > 125 then "high" else if tempo > 100 then "medium" else "low"
  let complexity := if (dynamics + spectralBalance) / 2 > 3/5 then "complex" else "simple"
  if energy = "high" ∧ complexity = "complex" then "Energetic and sophisticated"
  else if energy = "high" ∧ complexity = "simple" then "Energetic and straightforward"
  else if energy = "medium" ∧ complexity = "complex" then "Balanced and nuanced"
  else if energy = "medium" ∧ complexity = "simple" then "Smooth and accessible"
  else if energy = "low" ∧ complexity = "complex" then "Atmospheric and intricate"
  else if energy = "low" ∧ complexity = "simple" then "Calm and minimal"
  else "Balanced electronic"

/- ===== formatFeaturesForFeedback (lines 468-523) ===== -/

structure TempoInfo where
  value : ℚ
  description : String
  quality : String
deriving DecidableEq

structure LoudnessInfo where
  value : ℚ
  description : String
  quality : String
deriving DecidableEq

structure DynamicsInfo where
  value : ℚ
  description : String
  quality : String
  improvementNeeded : Bool
deriving DecidableEq

structure MixBalanceInfo where
  value : ℚ
  description : String
  quality : String
deriving DecidableEq

structure HarmonicInfo where
  key : String
  strength : Option ℚ
  description : String
deriving DecidableEq

structure ComplexityInfo where
  value : ℚ
  description : String
deriving DecidableEq

/-- The formatted feature record returned on the success path. -/
structure FormattedFeatures where
  title : String
  artist : String
  genre : String
  tempo : TempoInfo
  loudness : LoudnessInfo
  dynamics : DynamicsInfo
  mixBalance : MixBalanceInfo
  harmonic : HarmonicInfo
  complexity : ComplexityInfo
  mood : String
deriving DecidableEq

/-- The `harmonic` fallback object of the formatter. -/
def unknownHarmonic : HarmonicInfo :=
  { key := "Unknown", strength := none, description := "Could not determine key" }

/-- `formatFeaturesForFeedback(features)` (lines 468-523), field by field. -/
def formatFeaturesForFeedback (f : FeaturesF) : FormattedFeatures :=
  { title := f.metadata.title
    artist := f.metadata.artist
    genre := f.metadata.genre
    tempo :=
      { value := jsOr (jsOrOpt f.rhythm.bpm f.metadata.bpm) 120
        description := describeTempo (jsOrOpt f.rhythm.bpm f.metadata.bpm)
        quality := describeTempoQuality f.rhythm.bpm f.rhythm.beatStrength }
    loudness :=
      { value := jsOr f.waveform.loudness (-14)
        description := describeLoudness f.waveform.loudness
        quality := assessLoudnessQuality f.waveform.loudness }
    dynamics :=
      { value := jsOr f.waveform.dynamicRange (1/2)
        description := describeDynamics f.waveform.dynamicRange
        quality := if jsGtOpt f.waveform.dynamicRange (1/2) then "Good dynamic range"
                   else "Limited dynamic range"
        improvementNeeded := jsLtOpt f.waveform.dynamicRange (1/2) }
    mixBalance :=
      { value := jsOr f.spectral.contrast (1/2)
        description := describeSpectralBalance f.spectral.contrast
        quality := if jsOr f.spectral.contrast (1/2) > 3/5 then "Well-balanced"
                   else "Could be more balanced" }
    harmonic :=
      match f.harmonic.key with
      | some k =>
        if k = "" then unknownHarmonic
        else
          { key := k ++ " " ++ jsStr f.harmonic.scale
            strength := f.harmonic.strength
            description := "Track is in " ++ k ++ " " ++ jsStr f.harmonic.scale }
      | none => unknownHarmonic
    complexity :=
      { value := calculateComplexityScore f
        description := describeComplexity (calculateComplexityScore f) }
    mood := deriveMood f }

/- ===== Metadata parsing model (music-metadata result, lines 281-296) ===== -/

/-- `metadata.common` as read by `extractBasicMetadata`. -/
structure MMCommon where
  title : Option String := none
  artist : Option String := none
  album : Option String := none
  genre : Option (List String) := none
  year : Option ℚ := none
  bpm : Option ℚ := none
deriving DecidableEq

/-- `metadata.format` as read by `extractBasicMetadata`. -/
structure MMFormat where
  duration : Option ℚ := none
  bitrate : Option ℚ := none
  sampleRate : Option ℚ := none
  numberOfChannels : Option ℕ := none
  codec : Option String := none
  lossless : Option Bool := none
deriving DecidableEq

/-- A parsed `music-metadata` result. -/
structure MMMetadata where
  common : MMCommon := {}
  format : MMFormat := {}
deriving DecidableEq

/-- `extractBasicMetadata(metadata)` (lines 281-296): tag values with
JS-falsy defaults for title, artist and genre. -/
def extractBasicMetadata (m : MMMetadata) : MetadataRec :=
  { title := jsOrStr m.common.title "Unknown Title"
    artist := jsOrStr m.common.artist "Unknown Artist"
    album := m.common.album
    genre := jsOrStr (m.common.genre.bind List.head?) "Electronic"
    year := m.common.year
    duration := m.format.duration
    bitrate := m.format.bitrate
    sampleRate := m.format.sampleRate
    numberOfChannels := m.format.numberOfChannels
    codec := m.format.codec
    lossless := m.format.lossless
    bpm := m.common.bpm }

/- ===== Normalization stage (normalizeAudioFile, lines 247-274) ===== -/

/-- Outcome reported by the ffmpeg conversion backend. -/
inductive FfmpegOutcome where
  | ok
  | err (msg : String)
deriving DecidableEq

/-- Everything before the final dot of the path (the basename without
its `path.extname` extension); the path itself when it has no dot. -/
def stripLastExtension (filePath : String) : String :=
  let rev := filePath.data.reverse
  if rev.contains '.' then String.mk (((rev.dropWhile (fun c => c ≠ '.')).drop 1).reverse)
  else filePath

/-- The output path `dirname/basename-without-extension + _normalized.wav`
built at lines 249-252 (path arithmetic modelled on the final extension). -/
def normalizedOutputPath (filePath : String) : String :=
  stripLastExtension filePath ++ "_normalized.wav"

/-- `normalizeAudioFile(filePath)`: the promise resolves with the
normalized path on success and resolves with the ORIGINAL path on a
conversion error (lines 263-267); it never rejects. -/
def normalizeAudioFile (filePath : String) (o : FfmpegOutcome) : Except String String :=
  match o with
  | .ok => .ok (normalizedOutputPath filePath)
  | .err _ => .ok filePath

/- ===== Extractor backends (lines 336-437) ===== -/

/-- The object returned by `extractEssentiaFeatures` on success
(lines 378-401); `harmonic.key` is already the combined key-scale string
and the `dynamics` grouping is dropped by the caller merge. -/
structure EssentiaFeatures where
  waveformLength : ℕ := 0
  spectralCentroid : ℚ := 0
  spectralComplexity : ℚ := 0
  spectralEnergy : ℚ := 0
  rhythmBpm : ℚ := 0
  rhythmConfidence : ℚ := 0
  beatsCount : ℕ := 0
  harmonicKey : String := ""
  keyConfidence : ℚ := 0
deriving DecidableEq

/-- The merge of the Essentia result into the feature storage
(lines 169-187): spreads over waveform, spectral, rhythm and harmonic. -/
def mergeEssentia (f : FeaturesF) (e : EssentiaFeatures) : FeaturesF :=
  { f with
    waveform := { f.waveform with normalized := some true, length := some e.waveformLength }
    spectral := { f.spectral with
      centroid := some e.spectralCentroid
      complexity := some e.spectralComplexity
      energy := some e.spectralEnergy }
    rhythm := { f.rhythm with
      bpm := some e.rhythmBpm
      confidence := some e.rhythmConfidence
      beats_count := some e.beatsCount }
    harmonic := { f.harmonic with
      key := some e.harmonicKey
      key_confidence := some e.keyConfidence } }

/-- The merge of the (constant, simulated) Meyda result (lines 419-437
and 198-218): spreads over waveform and spectral. -/
def mergeMeyda (f : FeaturesF) : FeaturesF :=
  { f with
    waveform := { f.waveform with rms := some (2/5), zcr := some 120, crest := some (21/5) }
    spectral := { f.spectral with
      centroid := some 2500
      flatness := some (3/10)
      rolloff := some 4000
      mfcc := some [23/10, -7/5, 4/5, -1/5, 11/10, -1/2, 3/10, -1/10, 7/10, -2/5, 1/5, -1/10, 3/10] } }

/- ===== extractFeaturesWithFallbacks (lines 121-240) ===== -/

instance {ε α : Type} [DecidableEq ε] [DecidableEq α] : DecidableEq (Except ε α) :=
  fun x y =>
    match x, y with
    | .ok a, .ok b =>
      if h : a = b then .isTrue (by rw [h]) else .isFalse (by intro hc; cases hc; exact h rfl)
    | .error a, .error b =>
      if h : a = b then .isTrue (by rw [h]) else .isFalse (by intro hc; cases hc; exact h rfl)
    | .ok _, .error _ => .isFalse (by intro hc; cases hc)
    | .error _, .ok _ => .isFalse (by intro hc; cases hc)

/-- The environment of one run: which external effects succeed or fail. -/
structure PipelineEnv where
  fileExists : Bool := true
  ffmpeg : FfmpegOutcome := .ok
  metadataResult : Except String MMMetadata := .ok {}
  essentiaAvailable : Bool := false
  essentiaResult : Except String EssentiaFeatures := .error "unused"
deriving DecidableEq

/-- One run of `extractFeaturesWithFallbacks`, together with the on-disk
side effects on the temporary normalized file. -/
structure PipelineTrace where
  result : Except String FormattedFeatures
  normalizedPath : Option String
  tempFileCreated : Bool
  tempFileDeleted : Bool
deriving DecidableEq

/-- `extractFeaturesWithFallbacks(trackPath)` (lines 121-240):
file-existence check, normalization (whose own failure path is
unreachable because `normalizeAudioFile` always resolves), metadata
parsing (a failure here is rethrown), best-effort Essentia and Meyda
merges, then the unlink of the temporary file — which happens only on
this success path, after the Meyda step — and formatting. -/
def extractFeaturesWithFallbacks (env : PipelineEnv) (trackPath : String) : PipelineTrace :=
  if env.fileExists = false then
    { result := .error ("Enhanced audio analysis failed: Audio file not found at path: " ++ trackPath)
      normalizedPath := none
      tempFileCreated := false
      tempFileDeleted := false }
  else
    match normalizeAudioFile trackPath env.ffmpeg with
    | .error e =>
      { result := .error ("Enhanced audio analysis failed: Audio normalization failed: " ++ e)
        normalizedPath := none
        tempFileCreated := false
        tempFileDeleted := false }
    | .ok normalizedPath =>
      let tempCreated : Bool := env.ffmpeg = FfmpegOutcome.ok
      match env.metadataResult with
      | .error m =>
        { result := .error ("Enhanced audio analysis failed: Metadata extraction failed: " ++ m)
          normalizedPath := some normalizedPath
          tempFileCreated := tempCreated
          tempFileDeleted := false }
      | .ok mm =>
        let features0 : FeaturesF := { metadata := extractBasicMetadata mm }
        let features1 :=
          if env.essentiaAvailable then
            match env.essentiaResult with
            | .ok e => mergeEssentia features0 e
            | .error _ => features0
          else features0
        let features2 := mergeMeyda features1
        { result := .ok (formatFeaturesForFeedback features2)
          normalizedPath := some normalizedPath
          tempFileCreated := tempCreated
          tempFileDeleted := decide (normalizedPath ≠ trackPath) }

/- ===== extractEnhancedAudioFeatures (lines 67-118) ===== -/

/-- The nested default object of the minimal feature record. -/
structure AudioFeaturesCore where
  tempo : ℚ
  key : String
  energy : ℚ
  dynamics : ℚ
deriving DecidableEq

/-- The minimal feature record returned from the catch block
(lines 88-100 and 104-116). -/
structure MinimalFeatureRecord where
  tempo : ℚ
  key : String
  energy : ℚ
  dynamics : ℚ
  audioFeatures : AudioFeaturesCore
  error : String
deriving DecidableEq

/-- The fixed minimal default record with a given error message. -/
def minimalRecord (err : String) : MinimalFeatureRecord :=
  { tempo := 120, key := "Unknown", energy := 1/2, dynamics := 6
    audioFeatures := { tempo := 120, key := "Unknown", energy := 1/2, dynamics := 6 }
    error := err }

/-- Outcome of `Promise.race` between the analysis and the 25s timeout. -/
inductive RaceOutcome where
  | timedOut
  | inner (r : Except String FormattedFeatures)
deriving DecidableEq

/-- What `extractEnhancedAudioFeatures` returns: either the formatted
record from the success path or the minimal default record built in the
catch block. No error case exists: the catch handles every rejection. -/
inductive PipelineResult where
  | formatted (r : FormattedFeatures)
  | minimal (m : MinimalFeatureRecord)
deriving DecidableEq

/-- `extractEnhancedAudioFeatures(trackPath)` (lines 67-118): races the
analysis against the 25-second timeout; the catch block maps the timeout
rejection to the fixed default record with a timeout message and every
other rejection to the fixed default record with that error message. -/
def extractEnhancedAudioFeatures (o : RaceOutcome) : PipelineResult :=
  match o with
  | .inner (.ok r) => .formatted r
  | .timedOut =>
    .minimal (minimalRecord "Analysis timed out - using default features")
  | .inner (.error msg) =>
    if msg = "AUDIO_ANALYSIS_TIMEOUT" then
      .minimal (minimalRecord "Analysis timed out - using default features")
    else
      .minimal (minimalRecord msg)

/-- A whole pipeline run: if the deadline fires first the race outcome is
the timeout rejection, otherwise it is the settled inner promise. -/
def runPipeline (env : PipelineEnv) (trackPath : String) (timedOut : Bool) : PipelineResult :=
  extractEnhancedAudioFeatures
    (if timedOut then .timedOut
     else .inner (extractFeaturesWithFallbacks env trackPath).result)

/- ===== Reference comparator (queue service, part_001 lines 360-592) ===== -/

/-- A simulated per-artist reference profile (part_001 lines 413-475). -/
structure ReferenceProfile where
  tempo : ℚ
  loudness : ℚ
  dynamics : ℚ
  spectralBalance : ℚ
  complexity : ℚ
  key : String
deriving DecidableEq

/-- The `default` entry of the profile table. -/
def defaultProfile : ReferenceProfile :=
  { tempo := 125, loudness := -12, dynamics := 7
    spectralBalance := 4/5, complexity := 7/10, key := "A minor" }

/-- The `artistFeatures` table (part_001 lines 413-475). -/
def artistFeatures : List (String × ReferenceProfile) :=
  [ ("Ben Klock",
      { tempo := 132, loudness := -12, dynamics := 31/5
        spectralBalance := 41/50, complexity := 13/20, key := "F minor" })
  , ("Marcel Dettmann",
      { tempo := 135, loudness := -23/2, dynamics := 29/5
        spectralBalance := 19/25, complexity := 18/25, key := "C minor" })
  , ("Nina Kraviz",
      { tempo := 128, loudness := -54/5, dynamics := 71/10
        spectralBalance := 79/100, complexity := 17/25, key := "G minor" })
  , ("Aphex Twin",
      { tempo := 125, loudness := -71/5, dynamics := 42/5
        spectralBalance := 43/50, complexity := 91/100, key := "B minor" })
  , ("Four Tet",
      { tempo := 122, loudness := -131/10, dynamics := 38/5
        spectralBalance := 21/25, complexity := 41/50, key := "D minor" })
  , ("Jon Hopkins",
      { tempo := 118, loudness := -127/10, dynamics := 89/10
        spectralBalance := 22/25, complexity := 17/20, key := "A minor" })
  , ("default", defaultProfile) ]

/-- The OWN keys of the `artistFeatures` object literal: this is only the
first step of the JS property access `artistFeatures[artist]`, which on a
miss continues along the prototype chain. -/
def artistFeaturesOwnProperty (name : String) : Option ReferenceProfile :=
  (artistFeatures.find? (fun p => p.1 = name)).map Prod.snd

/-- The member names every plain object literal inherits from
`Object.prototype`; accessing one of them on `artistFeatures` yields a
truthy function or object instead of undefined. -/
def objectPrototypeMemberNames : List String :=
  ["constructor", "hasOwnProperty", "isPrototypeOf", "propertyIsEnumerable",
   "toLocaleString", "toString", "valueOf", "__proto__",
   "__defineGetter__", "__defineSetter__", "__lookupGetter__", "__lookupSetter__"]

/-- The value of the JS property access `artistFeatures[name]`: an own
data property (a profile), a truthy member inherited from
`Object.prototype` (not a profile; its feature fields are undefined), or
undefined. -/
inductive JsPropAccess where
  | profile (p : ReferenceProfile)
  | inheritedMember (name : String)
  | undefinedValue
deriving DecidableEq

/-- `artistFeatures[name]` including the prototype chain of the object
literal. -/
def artistFeaturesAccess (name : String) : JsPropAccess :=
  match artistFeaturesOwnProperty name with
  | some p => .profile p
  | none =>
    if name ∈ objectPrototypeMemberNames then .inheritedMember name
    else .undefinedValue

/-- `artistFeatures[artist] || artistFeatures.default` for one name: the
fallback fires only when the access is undefined (falsy); a truthy
inherited `Object.prototype` member is returned as-is. -/
def resolveReferenceArtist (name : String) : JsPropAccess :=
  match artistFeaturesAccess name with
  | .profile p => .profile p
  | .inheritedMember n => .inheritedMember n
  | .undefinedValue => .profile defaultProfile

/-- `getReferenceArtistsFeatures(referenceArtists)` (part_001 lines
408-481): each name maps through the fallback access above; the result
may therefore contain inherited non-profile members. -/
def getReferenceArtistsFeatures (referenceArtists : List String) : List JsPropAccess :=
  referenceArtists.map resolveReferenceArtist

/-- The resolved list as actual profiles, defined when no element is an
inherited non-profile member. -/
def profilesOnly : List JsPropAccess → Option (List ReferenceProfile)
  | [] => some []
  | .profile p :: rest => (profilesOnly rest).map (fun l => p :: l)
  | .inheritedMember _ :: _ => none
  | .undefinedValue :: _ => none

/-- `calculateAverage(values)`: `reduce((a,b) => a+b, 0) / length`. -/
def calculateAverage (values : List ℚ) : ℚ :=
  values.foldl (fun a b => a + b) 0 / (values.length : ℚ)

/-- The comparator view of the user track: each field models
`trackFeatures.X.value`, with `none` for an absent dimension.  The JS
availability test `trackFeatures.X && trackFeatures.X.value` is
"present and nonzero". -/
structure TrackFeatures where
  tempo : Option ℚ := none
  loudness : Option ℚ := none
  dynamics : Option ℚ := none
  mixBalance : Option ℚ := none
deriving DecidableEq

/-- The JS availability test `trackFeatures.X && trackFeatures.X.value`. -/
def dimAvailable (x : Option ℚ) : Bool :=
  match x with
  | some v => if v = 0 then false else true
  | none => false

/-- `calculateSimilarityScore(trackFeatures, referenceFeatures)`
(part_001 lines 498-543): each available dimension adds up to 25 points,
scaled by `1 - min(relativeDiff, cap)/cap`; the sum is normalized by the
total available weight and rounded, or 50 when nothing is available. -/
def calculateSimilarityScore (t : TrackFeatures) (refs : List ReferenceProfile) : ℚ :=
  let tempoPart : ℚ × ℚ :=
    if dimAvailable t.tempo then
      let refTempoAvg := calculateAverage (refs.map (fun r => r.tempo))
      let tempoDiff := |t.tempo.getD 0 - refTempoAvg| / refTempoAvg
      (25 * (1 - min tempoDiff (1/2) / (1/2)), 25)
    else (0, 0)
  let loudnessPart : ℚ × ℚ :=
    if dimAvailable t.loudness then
      let refLoudnessAvg := calculateAverage (refs.map (fun r => r.loudness))
      let loudnessDiff := |t.loudness.getD 0 - refLoudnessAvg| / |refLoudnessAvg|
      (25 * (1 - min loudnessDiff (3/10) / (3/10)), 25)
    else (0, 0)
  let dynamicsPart : ℚ × ℚ :=
    if dimAvailable t.dynamics then
      let refDynamicsAvg := calculateAverage (refs.map (fun r => r.dynamics))
      let dynamicsDiff := |t.dynamics.getD 0 - refDynamicsAvg| / refDynamicsAvg
      (25 * (1 - min dynamicsDiff (1/2) / (1/2)), 25)
    else (0, 0)
  let balancePart : ℚ × ℚ :=
    if dimAvailable t.mixBalance then
      let refBalanceAvg := calculateAverage (refs.map (fun r => r.spectralBalance))
      let balanceDiff := |t.mixBalance.getD 0 - refBalanceAvg| / refBalanceAvg
      (25 * (1 - min balanceDiff (1/2) / (1/2)), 25)
    else (0, 0)
  let score := tempoPart.1 + loudnessPart.1 + dynamicsPart.1 + balancePart.1
  let totalWeight := tempoPart.2 + loudnessPart.2 + dynamicsPart.2 + balancePart.2
  if 0 < totalWeight then (jsRound (score / totalWeight * 100) : ℚ) else 50

/-- `closest_match` result object. -/
structure ClosestMatch where
  artist : Option String
  score : ℤ
deriving DecidableEq

/-- `getClosestMatch(trackFeatures, referenceFeatures, referenceArtists)`
(part_001 lines 552-592): scans the profiles, scoring each by the
average of the normalized tempo and loudness similarities over whichever
of the two is available, and keeps the strictly best one. -/
def getClosestMatch (t : TrackFeatures) (refs : List ReferenceProfile)
    (referenceArtists : List String) : ClosestMatch :=
  let step := fun (st : Option String × ℚ) (p : ℕ × ReferenceProfile) =>
    let artistName := referenceArtists.get? p.1
    let refFeature := p.2
    let sim0 : ℚ × ℚ :=
      if dimAvailable t.tempo then
        let tempoDiff := |t.tempo.getD 0 - refFeature.tempo| / refFeature.tempo
        (1 - min tempoDiff (1/2) / (1/2), 1)
      else (0, 0)
    let sim1 : ℚ × ℚ :=
      if dimAvailable t.loudness then
        let loudnessDiff := |t.loudness.getD 0 - refFeature.loudness| / |refFeature.loudness|
        (sim0.1 + (1 - min loudnessDiff (3/10) / (3/10)), sim0.2 + 1)
      else sim0
    let score := if 0 < sim1.2 then sim1.1 / sim1.2 else 0
    if st.2 < score then (artistName, score) else st
  let final := refs.enum.foldl step (none, -1)
  { artist := final.1, score := jsRound (final.2 * 100) }

/-- A per-dimension comparison entry `{value, reference_avg, delta}`. -/
structure ComparisonEntry where
  value : ℚ
  reference_avg : ℚ
  delta : ℚ
deriving DecidableEq

/-- The full comparison output (part_001 lines 394-400). -/
structure ComparisonResult where
  tempo : Option ComparisonEntry
  loudness : Option ComparisonEntry
  dynamics : Option ComparisonEntry
  similarity_score : ℚ
  closest_match : ClosestMatch
deriving DecidableEq

/-- The body of `compareWithReferenceTracks` once the reference profiles
have been resolved (part_001 lines 372-400): a delta entry per dimension
present on the track (null otherwise), the similarity score, and the
closest match. -/
def compareProfiles (t : TrackFeatures) (referenceFeatures : List ReferenceProfile)
    (referenceArtists : List String) : ComparisonResult :=
  { tempo :=
      t.tempo.map (fun v =>
        let avg := calculateAverage (referenceFeatures.map (fun r => r.tempo))
        { value := v, reference_avg := avg, delta := v - avg })
    loudness :=
      t.loudness.map (fun v =>
        let avg := calculateAverage (referenceFeatures.map (fun r => r.loudness))
        { value := v, reference_avg := avg, delta := v - avg })
    dynamics :=
      t.dynamics.map (fun v =>
        let avg := calculateAverage (referenceFeatures.map (fun r => r.dynamics))
        { value := v, reference_avg := avg, delta := v - avg })
    similarity_score := calculateSimilarityScore t referenceFeatures
    closest_match := getClosestMatch t referenceFeatures referenceArtists }

/-- `compareWithReferenceTracks(trackFeatures, referenceArtists)`
(part_001 lines 366-401): resolves the profiles then builds the result.
When some resolved element is an inherited non-profile member, every
downstream average in the JS is NaN-poisoned; rationals have no NaN, so
that run is left outside the model (`none`). -/
def compareWithReferenceTracks (t : TrackFeatures) (referenceArtists : List String) :
    Option ComparisonResult :=
  match profilesOnly (getReferenceArtistsFeatures referenceArtists) with
  | some referenceFeatures => some (compareProfiles t referenceFeatures referenceArtists)
  | none => none

/- ===== Spec-side reference definitions and concrete inputs ===== -/

/-- The three complexity factors whose JS-truthy values the source
actually counts, in source order. -/
def presentComplexityFactors (f : FeaturesF) : List ℚ :=
  (if truthyQ f.spectral.contrast then [f.spectral.contrast.getD 0] else []) ++
  (if truthyQ f.waveform.dynamicRange then [f.waveform.dynamicRange.getD 0] else []) ++
  (if truthyQ f.spectral.flatness then [1 - f.spectral.flatness.getD 0] else [])

/-- Stated from the wording of the complexity-score claim, for comparison
with the source function: the plain average of whichever of
{spectral contrast, dynamic range, 1 - spectral flatness} are present,
and 0.5 when none is. -/
def complexityScoreClaimed (f : FeaturesF) : ℚ :=
  let l : List ℚ :=
    (match f.spectral.contrast with | some c => [c] | none => []) ++
    (match f.waveform.dynamicRange with | some d => [d] | none => []) ++
    (match f.spectral.flatness with | some fl => [1 - fl] | none => [])
  if l.isEmpty then 1/2 else l.sum / (l.length : ℚ)

/-- What the source complexity score actually computes: the baseline 0.5
is added into the sum before dividing by the factor count, and the
quotient is clamped above at 1. -/
def complexityScoreAmended (f : FeaturesF) : ℚ :=
  let l := presentComplexityFactors f
  if l.isEmpty then 1/2 else min ((1/2 + l.sum) / (l.length : ℚ)) 1

/-- A feature set whose only complexity factor is a spectral contrast
of 0.2: the claimed average would be 0.2. -/
def contrastOnlyFeatures : FeaturesF :=
  { spectral := { contrast := some (1/5) } }

/-- Stated from the wording of the tempo-band claim, for comparison with
the source describer: the six bands over positive BPM. -/
def tempoBandClaimed (bpm : ℚ) : String :=
  if bpm < 70 then "Very slow tempo"
  else if bpm < 90 then "Slow tempo"
  else if bpm < 120 then "Moderate tempo"
  else if bpm < 140 then "Energetic tempo"
  else if bpm < 160 then "Fast tempo"
  else "Very fast tempo"

/-- An environment whose only anomaly is the missing source file. -/
def envMissingFile : PipelineEnv :=
  { fileExists := false }

/-- An environment where the file exists and ffmpeg writes the
normalized temporary file, but metadata parsing then fails. -/
def envMetadataFailure : PipelineEnv :=
  { fileExists := true, ffmpeg := .ok, metadataResult := .error "could not parse file" }

/- ===== Helper lemmas ===== -/

/-- A string with a long prefix cannot equal a short string. -/
theorem append_ne_of_len_lt (pre m t : String) (h : t.length < pre.length) :
    pre ++ m ≠ t := by
  intro hc
  have hl := congrArg String.length hc
  rw [String.length_append] at hl
  omega

/-- A list of profile accesses built from one profile projects back to
the list of profiles. -/
theorem profilesOnly_map_profile {α : Type} (l : List α) (p : ReferenceProfile) :
    profilesOnly (l.map (fun _ => JsPropAccess.profile p)) = some (l.map (fun _ => p)) := by
  induction l with
  | nil => rfl
  | cons a rest ih =>
    simp only [List.map_cons, profilesOnly, ih]
    rfl

/- ===== Claims ===== -/

/-- Claim C3, counterexample: on a feature set whose only factor is a
spectral contrast of 0.2, `calculateComplexityScore` returns 0.7 (the
0.5 baseline is added into the sum), while the plain average of the
present factors claimed by the specification would be 0.2. -/
theorem c3_complexity_counterexample :
    calculateComplexityScore contrastOnlyFeatures = 7/10 ∧
    complexityScoreClaimed contrastOnlyFeatures = 1/5 ∧
    (7/10 : ℚ) ≠ 1/5 := by
  refine ⟨?_, ?_, by norm_num⟩
  · norm_num [calculateComplexityScore, contrastOnlyFeatures, truthyQ]
  · norm_num [complexityScoreClaimed, contrastOnlyFeatures]

/-- Claim C3, amended: for every feature set, `calculateComplexityScore`
returns `min((0.5 + sum of present factors) / count, 1)` over the
JS-truthy factors among spectral contrast, dynamic range and one minus
spectral flatness, and 0.5 when none is present. -/
theorem c3_complexity_amended (f : FeaturesF) :
    calculateComplexityScore f = complexityScoreAmended f := by
  unfold calculateComplexityScore complexityScoreAmended presentComplexityFactors
  by_cases h1 : truthyQ f.spectral.contrast <;>
  by_cases h2 : truthyQ f.waveform.dynamicRange <;>
  by_cases h3 : truthyQ f.spectral.flatness <;>
  simp [h1, h2, h3] <;> ring_nf

/-- Claim C5: when the conversion backend reports an error,
`normalizeAudioFile` resolves with the original input path; it never
rejects on any backend outcome. -/
theorem c5_normalization_error_fallback (filePath msg : String) :
    normalizeAudioFile filePath (FfmpegOutcome.err msg) = Except.ok filePath ∧
    ∀ o : FfmpegOutcome, ∃ p : String, normalizeAudioFile filePath o = Except.ok p := by
  refine ⟨rfl, ?_⟩
  intro o
  cases o
  · exact ⟨_, rfl⟩
  · exact ⟨_, rfl⟩

/-- Claim C7: for every positive BPM the tempo description agrees with
the claimed six-band table, and every boundary value falls into the
higher band (69.999 is Very slow, 70 is Slow, and so on at 90, 120, 140
and 160). -/
theorem c7_tempo_bands (bpm : ℚ) (h : 0 < bpm) :
    describeTempo (some bpm) = tempoBandClaimed bpm ∧
    describeTempo (some (69999/1000)) = "Very slow tempo" ∧
    describeTempo (some 70) = "Slow tempo" ∧
    describeTempo (some 90) = "Moderate tempo" ∧
    describeTempo (some 120) = "Energetic tempo" ∧
    describeTempo (some 140) = "Fast tempo" ∧
    describeTempo (some 160) = "Very fast tempo" := by
  refine ⟨?_, by norm_num [describeTempo], by norm_num [describeTempo],
    by norm_num [describeTempo], by norm_num [describeTempo],
    by norm_num [describeTempo], by norm_num [describeTempo]⟩
  have hne : bpm ≠ 0 := ne_of_gt h
  simp [describeTempo, tempoBandClaimed, hne]

/-- Claim C7, witness at the band boundary 70 BPM. -/
theorem c7_tempo_bands_witness :
    (0 : ℚ) < 70 ∧
      (describeTempo (some 70) = tempoBandClaimed 70 ∧
       describeTempo (some (69999/1000)) = "Very slow tempo" ∧
       describeTempo (some 70) = "Slow tempo" ∧
       describeTempo (some 90) = "Moderate tempo" ∧
       describeTempo (some 120) = "Energetic tempo" ∧
       describeTempo (some 140) = "Fast tempo" ∧
       describeTempo (some 160) = "Very fast tempo") :=
  ⟨by norm_num, c7_tempo_bands 70 (by norm_num)⟩

/-- Claim C1: on a deadline timeout the pipeline resolves with the fixed
minimal default record; an internal failure on an existing file (here a
metadata-parsing failure, the path taken for an empty or unreadable
file) also resolves with the fixed minimal default record carrying the
error message; the fixed record has tempo 120, key Unknown, energy 0.5
and dynamics 6; and every run resolves with some record, so no
exception reaches the caller. -/
theorem c1_timeout_and_error_fallback :
    (∀ (env : PipelineEnv) (path : String),
      runPipeline env path true =
        .minimal (minimalRecord "Analysis timed out - using default features")) ∧
    (∀ (env : PipelineEnv) (path m : String),
      env.fileExists = true → env.metadataResult = .error m →
      runPipeline env path false =
        .minimal (minimalRecord
          ("Enhanced audio analysis failed: Metadata extraction failed: " ++ m))) ∧
    (∀ e, (minimalRecord e).tempo = 120 ∧ (minimalRecord e).key = "Unknown" ∧
      (minimalRecord e).energy = 1/2 ∧ (minimalRecord e).dynamics = 6) ∧
    (∀ (env : PipelineEnv) (path : String) (timedOut : Bool),
      (∃ r, runPipeline env path timedOut = .formatted r) ∨
      (∃ m, runPipeline env path timedOut = .minimal m)) := by
  refine ⟨fun env path => rfl, ?_, fun e => ⟨rfl, rfl, rfl, rfl⟩, ?_⟩
  · intro env path m h1 h2
    have hne : ("Enhanced audio analysis failed: Metadata extraction failed: " ++ m) ≠
        "AUDIO_ANALYSIS_TIMEOUT" :=
      append_ne_of_len_lt _ _ _ (by decide)
    cases hff : env.ffmpeg <;>
      simp [runPipeline, extractFeaturesWithFallbacks, extractEnhancedAudioFeatures,
        normalizeAudioFile, h1, h2, hff, hne]
  · intro env path timedOut
    cases timedOut
    · cases hr : (extractFeaturesWithFallbacks env path).result with
      | ok r =>
        left
        exact ⟨r, by simp [runPipeline, extractEnhancedAudioFeatures, hr]⟩
      | error m =>
        right
        by_cases hm : m = "AUDIO_ANALYSIS_TIMEOUT"
        · exact ⟨minimalRecord "Analysis timed out - using default features",
            by simp [runPipeline, extractEnhancedAudioFeatures, hr, hm]⟩
        · exact ⟨minimalRecord m,
            by simp [runPipeline, extractEnhancedAudioFeatures, hr, hm]⟩
    · right
      exact ⟨minimalRecord "Analysis timed out - using default features", rfl⟩

/-- Claim C1, witness: a run whose metadata stage fails resolves with
the fixed minimal default record. -/
theorem c1_timeout_and_error_fallback_witness :
    envMetadataFailure.fileExists = true ∧
    envMetadataFailure.metadataResult = .error "could not parse file" ∧
    runPipeline envMetadataFailure "track.mp3" false =
      .minimal (minimalRecord
        ("Enhanced audio analysis failed: Metadata extraction failed: " ++
          "could not parse file")) :=
  ⟨rfl, rfl,
    c1_timeout_and_error_fallback.2.1 envMetadataFailure "track.mp3"
      "could not parse file" rfl rfl⟩

/-- Claim C2, counterexample: for a missing input path the public
pipeline function does NOT abort with a reported error — it resolves
normally with the fixed minimal default record (the asset-not-found
message survives only inside the record's error field). -/
theorem c2_missing_file_counterexample :
    runPipeline envMissingFile "missing.mp3" false =
      .minimal (minimalRecord
        "Enhanced audio analysis failed: Audio file not found at path: missing.mp3") ∧
    (minimalRecord
        "Enhanced audio analysis failed: Audio file not found at path: missing.mp3").tempo
      = 120 := by
  constructor
  · simp [runPipeline, extractFeaturesWithFallbacks, extractEnhancedAudioFeatures,
      envMissingFile]
  · rfl

/-- Claim C2, amended: an absent input path makes the inner analysis
fail with an asset-not-found error, but the public pipeline function
catches it and resolves with the fixed minimal default record carrying
that message; no error, asset-not-found included, propagates past the
pipeline boundary. -/
theorem c2_missing_file_amended (env : PipelineEnv) (path : String)
    (h : env.fileExists = false) :
    (extractFeaturesWithFallbacks env path).result =
      .error ("Enhanced audio analysis failed: Audio file not found at path: " ++ path) ∧
    runPipeline env path false =
      .minimal (minimalRecord
        ("Enhanced audio analysis failed: Audio file not found at path: " ++ path)) := by
  have hne : ("Enhanced audio analysis failed: Audio file not found at path: " ++ path) ≠
      "AUDIO_ANALYSIS_TIMEOUT" :=
    append_ne_of_len_lt _ _ _ (by decide)
  constructor
  · simp [extractFeaturesWithFallbacks, h]
  · simp [runPipeline, extractFeaturesWithFallbacks, extractEnhancedAudioFeatures, h, hne]

/-- Claim C2, amended, witness at a concrete missing path. -/
theorem c2_missing_file_amended_witness :
    envMissingFile.fileExists = false ∧
    ((extractFeaturesWithFallbacks envMissingFile "missing.mp3").result =
      .error "Enhanced audio analysis failed: Audio file not found at path: missing.mp3" ∧
     runPipeline envMissingFile "missing.mp3" false =
      .minimal (minimalRecord
        "Enhanced audio analysis failed: Audio file not found at path: missing.mp3")) :=
  ⟨rfl, c2_missing_file_amended envMissingFile "missing.mp3" rfl⟩

/-- Claim C6: on the run where normalization succeeds (the temporary
normalized file is created) and metadata parsing then fails, the
function exits with an error WITHOUT deleting the temporary file, while
a fully successful run does delete it — so the deletion is not
guaranteed on every exit path, contradicting the claim. -/
theorem c6_temp_file_leak :
    (extractFeaturesWithFallbacks envMetadataFailure "track.mp3").tempFileCreated = true ∧
    (extractFeaturesWithFallbacks envMetadataFailure "track.mp3").normalizedPath =
      some "track_normalized.wav" ∧
    (extractFeaturesWithFallbacks envMetadataFailure "track.mp3").tempFileDeleted = false ∧
    (extractFeaturesWithFallbacks envMetadataFailure "track.mp3").result =
      .error "Enhanced audio analysis failed: Metadata extraction failed: could not parse file" ∧
    (extractFeaturesWithFallbacks { } "track.mp3").tempFileCreated = true ∧
    (extractFeaturesWithFallbacks { } "track.mp3").tempFileDeleted = true := by
  refine ⟨rfl, by decide, rfl, rfl, rfl, by decide⟩

/-- Claim C4: a track whose four dimension values equal the (nonzero)
reference averages scores 100; a track whose relative difference
reaches the dimension cap (tempo 0.5, loudness 0.3, dynamics 0.5,
balance 0.5) on all four available dimensions scores 0; and a track
with no available dimension scores the neutral default 50. -/
theorem c4_similarity_endpoints :
    (∀ refs : List ReferenceProfile,
      calculateAverage (refs.map (fun r => r.tempo)) ≠ 0 →
      calculateAverage (refs.map (fun r => r.loudness)) ≠ 0 →
      calculateAverage (refs.map (fun r => r.dynamics)) ≠ 0 →
      calculateAverage (refs.map (fun r => r.spectralBalance)) ≠ 0 →
      calculateSimilarityScore
        { tempo := some (calculateAverage (refs.map (fun r => r.tempo)))
          loudness := some (calculateAverage (refs.map (fun r => r.loudness)))
          dynamics := some (calculateAverage (refs.map (fun r => r.dynamics)))
          mixBalance := some (calculateAverage (refs.map (fun r => r.spectralBalance))) }
        refs = 100) ∧
    (∀ (refs : List ReferenceProfile) (vT vL vD vB : ℚ),
      vT ≠ 0 → vL ≠ 0 → vD ≠ 0 → vB ≠ 0 →
      (1/2 : ℚ) ≤ |vT - calculateAverage (refs.map (fun r => r.tempo))| /
        calculateAverage (refs.map (fun r => r.tempo)) →
      (3/10 : ℚ) ≤ |vL - calculateAverage (refs.map (fun r => r.loudness))| /
        |calculateAverage (refs.map (fun r => r.loudness))| →
      (1/2 : ℚ) ≤ |vD - calculateAverage (refs.map (fun r => r.dynamics))| /
        calculateAverage (refs.map (fun r => r.dynamics)) →
      (1/2 : ℚ) ≤ |vB - calculateAverage (refs.map (fun r => r.spectralBalance))| /
        calculateAverage (refs.map (fun r => r.spectralBalance)) →
      calculateSimilarityScore
        { tempo := some vT, loudness := some vL, dynamics := some vD, mixBalance := some vB }
        refs = 0) ∧
    (∀ refs : List ReferenceProfile,
      calculateSimilarityScore
        { tempo := none, loudness := none, dynamics := none, mixBalance := none }
        refs = 50) := by
  refine ⟨?_, ?_, ?_⟩
  · intro refs h1 h2 h3 h4
    simp only [calculateSimilarityScore, dimAvailable, h1, h2, h3, h4, if_neg,
      Option.getD_some, sub_self, abs_zero, zero_div]
    norm_num [jsRound]
  · intro refs vT vL vD vB hT0 hL0 hD0 hB0 hT hL hD hB
    simp only [calculateSimilarityScore, dimAvailable, hT0, hL0, hD0, hB0, if_neg,
      Option.getD_some]
    rw [min_eq_right hT, min_eq_right hL, min_eq_right hD, min_eq_right hB]
    norm_num [jsRound]
  · intro refs
    simp [calculateSimilarityScore, dimAvailable]

/-- Claim C4, witness over the single default reference profile. -/
theorem c4_similarity_endpoints_witness :
    calculateSimilarityScore
      { tempo := some 125, loudness := some (-12), dynamics := some 7,
        mixBalance := some (4/5) } [defaultProfile] = 100 ∧
    calculateSimilarityScore
      { tempo := some (375/2), loudness := some (-78/5), dynamics := some (21/2),
        mixBalance := some (6/5) } [defaultProfile] = 0 ∧
    calculateSimilarityScore
      { tempo := none, loudness := none, dynamics := none, mixBalance := none }
      [defaultProfile] = 50 := by
  have eT : calculateAverage ([defaultProfile].map (fun r => r.tempo)) = 125 := by
    norm_num [calculateAverage, defaultProfile]
  have eL : calculateAverage ([defaultProfile].map (fun r => r.loudness)) = -12 := by
    norm_num [calculateAverage, defaultProfile]
  have eD : calculateAverage ([defaultProfile].map (fun r => r.dynamics)) = 7 := by
    norm_num [calculateAverage, defaultProfile]
  have eB : calculateAverage ([defaultProfile].map (fun r => r.spectralBalance)) = 4/5 := by
    norm_num [calculateAverage, defaultProfile]
  refine ⟨?_, ?_, c4_similarity_endpoints.2.2 [defaultProfile]⟩
  · have h := c4_similarity_endpoints.1 [defaultProfile]
      (by rw [eT]; norm_num) (by rw [eL]; norm_num)
      (by rw [eD]; norm_num) (by rw [eB]; norm_num)
    rw [eT, eL, eD, eB] at h
    exact h
  · exact c4_similarity_endpoints.2.1 [defaultProfile] (375/2) (-78/5) (21/2) (6/5)
      (by norm_num) (by norm_num) (by norm_num) (by norm_num)
      (by rw [eT]; norm_num [abs_of_pos]) (by rw [eL]; norm_num [abs_of_pos])
      (by rw [eD]; norm_num [abs_of_pos]) (by rw [eB]; norm_num [abs_of_pos])

/-- Claim C8, counterexample: the name toString is absent from the
profile table, yet the JS property access finds the truthy member
inherited from Object.prototype, so the default fallback never fires
and the name does NOT resolve to the fixed default profile (likewise
constructor); the claimed universal default resolution is false. -/
theorem c8_prototype_member_counterexample :
    artistFeaturesOwnProperty "toString" = none ∧
    resolveReferenceArtist "toString" = JsPropAccess.inheritedMember "toString" ∧
    resolveReferenceArtist "toString" ≠ JsPropAccess.profile defaultProfile ∧
    resolveReferenceArtist "constructor" = JsPropAccess.inheritedMember "constructor" := by
  refine ⟨by decide, by decide, by decide, by decide⟩

/-- Claim C8, amended: every artist name that is neither an own key of
the profile table nor the name of a member inherited from
Object.prototype resolves to the fixed default profile, and the
comparator output for a list of such names is exactly the complete
comparison record — per-dimension entries, similarity score and closest
match — computed from default profiles; a prototype-member name instead
yields the truthy inherited member, on which the fallback never fires. -/
theorem c8_unknown_artist_defaults_amended (names : List String) (t : TrackFeatures)
    (h : ∀ a ∈ names,
      artistFeaturesOwnProperty a = none ∧ a ∉ objectPrototypeMemberNames) :
    getReferenceArtistsFeatures names =
      names.map (fun _ => JsPropAccess.profile defaultProfile) ∧
    compareWithReferenceTracks t names =
      some (compareProfiles t (names.map (fun _ => defaultProfile)) names) := by
  have hg : getReferenceArtistsFeatures names =
      names.map (fun _ => JsPropAccess.profile defaultProfile) := by
    unfold getReferenceArtistsFeatures
    apply List.map_congr_left
    intro a ha
    obtain ⟨h1, h2⟩ := h a ha
    unfold resolveReferenceArtist artistFeaturesAccess
    rw [h1]
    simp [h2]
  refine ⟨hg, ?_⟩
  unfold compareWithReferenceTracks
  rw [hg, profilesOnly_map_profile]

/-- Claim C8, amended, witness at a concrete unrecognized
non-prototype artist name. -/
theorem c8_unknown_artist_defaults_amended_witness :
    getReferenceArtistsFeatures ["Zzz Unknown"] = [JsPropAccess.profile defaultProfile] ∧
    compareWithReferenceTracks { tempo := some 120 } ["Zzz Unknown"] =
      some (compareProfiles { tempo := some 120 } [defaultProfile] ["Zzz Unknown"]) := by
  have h := c8_unknown_artist_defaults_amended ["Zzz Unknown"] { tempo := some 120 }
    (by decide)
  simpa using h

/-- Claim C9: a dimension whose value is exactly 0 is unavailable to the
similarity score — replacing it by an absent dimension changes nothing —
and a track whose four comparable values are all 0 scores the neutral
default 50. -/
theorem c9_zero_value_unavailable :
    (∀ (t : TrackFeatures) (refs : List ReferenceProfile), t.tempo = some 0 →
      calculateSimilarityScore t refs =
        calculateSimilarityScore { t with tempo := none } refs) ∧
    (∀ (t : TrackFeatures) (refs : List ReferenceProfile), t.loudness = some 0 →
      calculateSimilarityScore t refs =
        calculateSimilarityScore { t with loudness := none } refs) ∧
    (∀ (t : TrackFeatures) (refs : List ReferenceProfile), t.dynamics = some 0 →
      calculateSimilarityScore t refs =
        calculateSimilarityScore { t with dynamics := none } refs) ∧
    (∀ (t : TrackFeatures) (refs : List ReferenceProfile), t.mixBalance = some 0 →
      calculateSimilarityScore t refs =
        calculateSimilarityScore { t with mixBalance := none } refs) ∧
    (∀ refs : List ReferenceProfile,
      calculateSimilarityScore
        { tempo := some 0, loudness := some 0, dynamics := some 0, mixBalance := some 0 }
        refs = 50) := by
  refine ⟨?_, ?_, ?_, ?_, ?_⟩ <;>
    first
    | (intro t refs h; simp [calculateSimilarityScore, dimAvailable, h])
    | (intro refs; simp [calculateSimilarityScore, dimAvailable])

/-- Claim C9, witness: an all-zero track record over the default profile. -/
theorem c9_zero_value_unavailable_witness :
    calculateSimilarityScore
      { tempo := some 0, loudness := some 3, dynamics := none, mixBalance := none }
      [defaultProfile] =
      calculateSimilarityScore
        { tempo := none, loudness := some 3, dynamics := none, mixBalance := none }
        [defaultProfile] ∧
    calculateSimilarityScore
      { tempo := some 0, loudness := some 0, dynamics := some 0, mixBalance := some 0 }
      [defaultProfile] = 50 :=
  ⟨c9_zero_value_unavailable.1
      { tempo := some 0, loudness := some 3, dynamics := none, mixBalance := none }
      [defaultProfile] rfl,
    c9_zero_value_unavailable.2.2.2.2 [defaultProfile]⟩

/-- Claim C10: when neither the rhythm analyzer nor the metadata supplies
a BPM (and, as on every record this pipeline builds, no beat strength is
set), the formatted record has tempo value 120 but description Unknown
tempo and quality Unknown beat quality; the second part shows the
initial storage and both extractor merges never set a beat strength. -/
theorem c10_unknown_tempo_formatting :
    (∀ f : FeaturesF, f.rhythm.bpm = none → f.metadata.bpm = none →
      f.rhythm.beatStrength = none →
      (formatFeaturesForFeedback f).tempo.value = 120 ∧
      (formatFeaturesForFeedback f).tempo.description = "Unknown tempo" ∧
      (formatFeaturesForFeedback f).tempo.quality = "Unknown beat quality") ∧
    (∀ md : MetadataRec, (({ metadata := md } : FeaturesF)).rhythm.beatStrength = none) ∧
    (∀ (f : FeaturesF) (e : EssentiaFeatures), f.rhythm.beatStrength = none →
      (mergeEssentia f e).rhythm.beatStrength = none ∧
      (mergeMeyda f).rhythm.beatStrength = none) := by
  refine ⟨?_, fun md => rfl, ?_⟩
  · intro f h1 h2 h3
    refine ⟨?_, ?_, ?_⟩ <;>
      simp [formatFeaturesForFeedback, jsOr, jsOrOpt, describeTempo,
        describeTempoQuality, h1, h2, h3]
  · intro f e h
    exact ⟨by simp [mergeEssentia, h], by simp [mergeMeyda, h]⟩

/-- Claim C10, witness: the empty feature storage has no BPM anywhere. -/
theorem c10_unknown_tempo_formatting_witness :
    (formatFeaturesForFeedback { }).tempo.value = 120 ∧
    (formatFeaturesForFeedback { }).tempo.description = "Unknown tempo" ∧
    (formatFeaturesForFeedback { }).tempo.quality = "Unknown beat quality" :=
  c10_unknown_tempo_formatting.1 { } rfl rfl rfl

end MusicFeedback
